import Mathlib

/-!
Shallow embedding of the gbemu memory bus (`src/memory/mmu.rs`) and
divider/timer unit (`src/timer/mod.rs`), together with theorems checking
the natural-language specification against the code.

Machine integers are embedded as `Nat` with explicit `% 2^w` at the points
where the Rust code wraps (`wrapping_add`) or truncates (`as u8` / `as u16`
casts).  External collaborators of the MMU (GPU, APU, cartridge, work RAM,
joypad, boot ROM) are not part of the two source files; they are modelled
from the spec's collaborator contracts as plain byte stores, which is all
the claims need.
-/

inductive EmulationMode where
  | Dmg
  | Cgb
deriving DecidableEq

/-- The `COUNTER_SHIFT` array `[9, 3, 5, 7]`, indexed by `freq` (0..3). -/
def COUNTER_SHIFT (i : Nat) : Nat :=
  match i with
  | 0 => 9
  | 1 => 3
  | 2 => 5
  | _ => 7

/-- The `TRIGGER_CLOCKS` array `[512, 8, 32, 128]`, indexed by `freq` (0..3). -/
def TRIGGER_CLOCKS (i : Nat) : Nat :=
  match i with
  | 0 => 512
  | 1 => 8
  | 2 => 32
  | _ => 128

structure Divider where
  counter : Nat

def Divider.new (mode : EmulationMode) : Divider :=
  { counter :=
      match mode with
      | .Dmg => 0xABCC
      | .Cgb => 0x1EA0 }

def Divider.tick (d : Divider) (cycles : Nat) : Divider :=
  { d with counter := (d.counter + cycles) % 65536 }

def Divider.get_byte (d : Divider) : Nat :=
  (d.counter >>> 8) % 256

def Divider.set_byte (d : Divider) : Divider :=
  { d with counter := 0 }

inductive TimerState where
  | Reloading
  | Reloaded
  | Running
deriving DecidableEq

structure Timer where
  acc : Nat
  tma : Nat
  timer_enable : Nat
  freq : Nat
  divider : Divider
  request_timer_int : Bool
  tima_bit : Nat
  state : TimerState
  clock : Nat
  tima_written_while_reload : Bool

def Timer.new (mode : EmulationMode) : Timer :=
  { acc := 0
    tma := 0
    timer_enable := 0
    freq := 0
    divider := Divider.new mode
    request_timer_int := false
    tima_bit := 9
    state := .Running
    clock := 0
    tima_written_while_reload := false }

/-- The falling-edge signal: `((timer_enable & 4) >> 2) & (counter >> tima_bit) as u8`. -/
def Timer.signal (t : Timer) : Nat :=
  ((t.timer_enable &&& 4) >>> 2) &&& ((t.divider.counter >>> t.tima_bit) % 256)

def Timer.advance_state (t : Timer) : Timer :=
  match t.state with
  | .Reloading =>
      if !t.tima_written_while_reload then
        { t with acc := t.tma, request_timer_int := true, state := .Reloaded }
      else
        { t with tima_written_while_reload := false, state := .Reloaded }
  | .Reloaded => { t with state := .Running }
  | .Running => t

def Timer.increment_tima (t : Timer) : Timer :=
  let acc' := (t.acc + 1) % 256
  { t with acc := acc', state := if acc' = 0 then .Reloading else t.state }

def Timer.detect_falling_edge (t : Timer) (old_signal : Nat) : Timer :=
  if old_signal ≠ 0 ∧ t.signal = 0 then t.increment_tima else t

/-- One iteration of the body of `Timer::tick` (one T-cycle). -/
def Timer.tickOne (t : Timer) : Timer :=
  let t1 : Timer := { t with clock := t.clock + 1 }
  let old_signal := t1.signal
  let t2 : Timer := { t1 with divider := t1.divider.tick 1 }
  let t3 : Timer :=
    if 4 ≤ t2.clock then ({ t2 with clock := t2.clock - 4 }).advance_state else t2
  t3.detect_falling_edge old_signal

/-- `Timer::tick(cycles)`: the per-T-cycle loop run `cycles` times. -/
def Timer.tick (t : Timer) : Nat → Timer
  | 0 => t
  | n + 1 => t.tickOne.tick n

def Timer.rapid_toggle_glitch (t : Timer) (value : Nat) : Timer :=
  if t.timer_enable = 0 then t
  else
    let old_period := TRIGGER_CLOCKS t.freq
    let new_period := TRIGGER_CLOCKS (value &&& 0x3)
    if t.divider.counter &&& old_period ≠ 0 ∧
        (value &&& 4 = 0 ∨ t.divider.counter &&& new_period ≠ 0) then
      t.increment_tima
    else t

def Timer.get_byte (t : Timer) (addr : Nat) : Nat :=
  if addr = 0xFF04 then t.divider.get_byte
  else if addr = 0xFF05 then
    (if t.state = TimerState.Reloading then 0 else t.acc)
  else if addr = 0xFF06 then t.tma
  else if addr = 0xFF07 then 0xF8 ||| t.timer_enable ||| t.freq
  else 0x00

def Timer.set_byte (t : Timer) (addr value : Nat) : Timer :=
  if addr = 0xFF04 then
    let old_signal := t.signal
    ({ t with divider := t.divider.set_byte }).detect_falling_edge old_signal
  else if addr = 0xFF05 then
    (if t.state ≠ TimerState.Reloaded then
      { t with acc := value
               tima_written_while_reload :=
                 if t.state = TimerState.Reloading then true
                 else t.tima_written_while_reload }
     else t)
  else if addr = 0xFF06 then
    { t with tma := value, acc := if t.state = TimerState.Reloaded then value else t.acc }
  else if addr = 0xFF07 then
    let t1 := t.rapid_toggle_glitch value
    { t1 with timer_enable := value &&& 0x04
              freq := value &&& 0x03
              tima_bit := COUNTER_SHIFT (value &&& 0x03) }
  else t

/-- Modelled from the spec: the boot-ROM holder (256 bytes with an active
flag; the contents are an external input to `Mmu::new`). -/
structure Bootrom where
  is_active : Bool
  data : Nat → Nat

def Bootrom.new (data : Nat → Nat) : Bootrom :=
  { is_active := true, data := data }

def Bootrom.get_byte (b : Bootrom) (addr : Nat) : Nat :=
  b.data addr

def Bootrom.deactivate (b : Bootrom) : Bootrom :=
  { b with is_active := false }

/-- Modelled from the spec: the cartridge collaborator (`read(u16)→u8`,
`write(u16,u8)`).  ROM reads come from the loaded image, external-RAM bytes
are stored; MBC control writes are not modelled (no claim touches them). -/
structure Cartridge where
  rom : Nat → Nat
  ram : Nat → Nat

def Cartridge.new (data : Nat → Nat) : Cartridge :=
  { rom := data, ram := fun _ => 0 }

def Cartridge.get_byte (c : Cartridge) (addr : Nat) : Nat :=
  if addr ≤ 0x7FFF then c.rom addr else c.ram addr

def Cartridge.set_byte (c : Cartridge) (addr value : Nat) : Cartridge :=
  if 0xA000 ≤ addr ∧ addr ≤ 0xBFFF then
    { c with ram := fun a => if a = addr then value else c.ram a }
  else c

/-- Modelled from the spec: the GPU collaborator.  It owns VRAM, the 160-byte
OAM and its LCD/palette registers, and exposes the flags `oam_dma_active` and
`hdma_flag` and the interrupt request latches.  CGB VRAM banking (VBK) is not
modelled; VRAM is addressed flat (no claim switches banks). -/
structure Gpu where
  vram : Nat → Nat
  oam : Nat → Nat
  regs : Nat → Nat
  oam_dma_active : Bool
  hdma_flag : Bool
  request_lcd_int : Bool
  request_vblank_int : Bool

def Gpu.new : Gpu :=
  { vram := fun _ => 0
    oam := fun _ => 0
    regs := fun _ => 0
    oam_dma_active := false
    hdma_flag := false
    request_lcd_int := false
    request_vblank_int := false }

def Gpu.get_byte (g : Gpu) (addr : Nat) : Nat :=
  if 0x8000 ≤ addr ∧ addr ≤ 0x9FFF then g.vram addr
  else if 0xFE00 ≤ addr ∧ addr ≤ 0xFE9F then g.oam (addr - 0xFE00)
  else g.regs addr

def Gpu.set_byte (g : Gpu) (addr value : Nat) : Gpu :=
  if 0x8000 ≤ addr ∧ addr ≤ 0x9FFF then
    { g with vram := fun a => if a = addr then value else g.vram a }
  else if 0xFE00 ≤ addr ∧ addr ≤ 0xFE9F then
    { g with oam := fun a => if a = addr - 0xFE00 then value else g.oam a }
  else
    { g with regs := fun a => if a = addr then value else g.regs a }

/-- Modelled from the spec: the joypad collaborator — a register byte and the
joypad interrupt request latch. -/
structure Joypad where
  p1 : Nat
  request_joypad_int : Bool

def Joypad.new : Joypad :=
  { p1 := 0, request_joypad_int := false }

def Joypad.get_byte (j : Joypad) (_addr : Nat) : Nat :=
  j.p1

def Joypad.set_byte (j : Joypad) (_addr value : Nat) : Joypad :=
  { j with p1 := value }

/-- Modelled from the spec: the APU collaborator as a plain byte store over
its register and waveform-RAM range. -/
structure Apu where
  store : Nat → Nat

def Apu.new : Apu :=
  { store := fun _ => 0 }

def Apu.get_byte (a : Apu) (addr : Nat) : Nat :=
  a.store addr

def Apu.set_byte (a : Apu) (addr value : Nat) : Apu :=
  { a with store := fun x => if x = addr then value else a.store x }

/-- Modelled from the spec: work RAM as a byte store addressed by bus address
(CGB banking via `0xFF70` is not modelled; no claim switches banks). -/
structure Wram where
  store : Nat → Nat

def Wram.new : Wram :=
  { store := fun _ => 0 }

def Wram.get_byte (w : Wram) (addr : Nat) : Nat :=
  w.store addr

def Wram.set_byte (w : Wram) (addr value : Nat) : Wram :=
  { w with store := fun a => if a = addr then value else w.store a }

/-- Modelled from the spec: the CGB speed-switch request state (KEY1). -/
structure CgbMode where
  prepare_speed_switch : Nat
  current_speed : Nat

def CgbMode.new : CgbMode :=
  { prepare_speed_switch := 0, current_speed := 0 }

/-- Modelled from the spec: the KEY1 read-out byte composed from the speed
state (no claim reads it; it only keeps `0xFF4D` total). -/
def CgbMode.get_byte (c : CgbMode) : Nat :=
  ((c.current_speed &&& 1) <<< 7) ||| 0x7E ||| (c.prepare_speed_switch &&& 1)

structure OamDma where
  active : Bool
  src_addr : Nat
  i : Nat
  just_launched : Bool
  restarting : Bool

def OamDma.init : OamDma :=
  { active := false, src_addr := 0, i := 0, just_launched := false, restarting := false }

inductive HdmaType where
  | NoHdma
  | HBlankDma
  | GPDma
deriving DecidableEq

structure Hdma where
  hdma_type : HdmaType
  new_hdma : Bool
  src : Nat
  dst : Nat
  blocks : Nat

def Hdma.init : Hdma :=
  { hdma_type := .NoHdma, new_hdma := false, src := 0, dst := 0, blocks := 0 }

structure Mmu where
  bootrom : Bootrom
  cartridge : Cartridge
  gpu : Gpu
  joypad : Joypad
  apu : Apu
  ie : Nat
  hdma : Hdma
  oam_dma : OamDma
  timer : Timer
  wram : Wram
  hram : Nat → Nat
  serial_out : Nat
  emu_mode : EmulationMode
  cgb_mode : CgbMode
  request_serial_int : Bool
  oam_dma_cycles : Nat

/-- `Mmu::new`; `data` is the cartridge image and `boot` the boot-ROM bytes
(both external inputs). -/
def Mmu.new (data boot : Nat → Nat) (emu_mode : EmulationMode) : Mmu :=
  { bootrom := Bootrom.new boot
    cartridge := Cartridge.new data
    gpu := Gpu.new
    joypad := Joypad.new
    apu := Apu.new
    ie := 0
    hdma := Hdma.init
    oam_dma := OamDma.init
    timer := Timer.new emu_mode
    wram := Wram.new
    hram := fun _ => 0
    serial_out := 0
    emu_mode := emu_mode
    cgb_mode := CgbMode.new
    request_serial_int := false
    oam_dma_cycles := 0 }

def Mmu.get_byte (m : Mmu) (addr : Nat) : Nat :=
  if addr ≤ 0x00FF then
    (if m.bootrom.is_active then m.bootrom.get_byte addr else m.cartridge.get_byte addr)
  else if addr ≤ 0x7FFF then m.cartridge.get_byte addr
  else if addr ≤ 0x9FFF then m.gpu.get_byte addr
  else if addr ≤ 0xBFFF then m.cartridge.get_byte addr
  else if addr ≤ 0xDFFF then m.wram.get_byte addr
  else if addr ≤ 0xFDFF then m.wram.get_byte (0xC000 + (addr - 0xE000))
  else if addr ≤ 0xFE9F then
    (if m.gpu.oam_dma_active || m.oam_dma.restarting then 0xFF else m.gpu.get_byte addr)
  else if addr ≤ 0xFEFF then 0xFF
  else if addr ≤ 0xFF3F then
    (if addr = 0xFF00 then m.joypad.get_byte addr
     else if addr = 0xFF01 then m.serial_out
     else if addr = 0xFF02 then 0x7E
     else if 0xFF04 ≤ addr ∧ addr ≤ 0xFF07 then m.timer.get_byte addr
     else if addr = 0xFF0F then
       0xE0 ||| m.joypad.request_joypad_int.toNat <<< 4 |||
         m.request_serial_int.toNat <<< 3 ||| m.timer.request_timer_int.toNat <<< 2 |||
         m.gpu.request_lcd_int.toNat <<< 1 ||| m.gpu.request_vblank_int.toNat
     else if 0xFF10 ≤ addr ∧ addr ≤ 0xFF1E then m.apu.get_byte addr
     else if 0xFF20 ≤ addr ∧ addr ≤ 0xFF26 then m.apu.get_byte addr
     else if 0xFF30 ≤ addr ∧ addr ≤ 0xFF3F then m.apu.get_byte addr
     else 0xFF)
  else if addr ≤ 0xFF45 then m.gpu.get_byte addr
  else if addr = 0xFF46 then (m.oam_dma.src_addr >>> 8) % 256
  else if addr ≤ 0xFF4B then m.gpu.get_byte addr
  else if addr ≤ 0xFF7F then
    (if addr = 0xFF4D then
       (match m.emu_mode with
        | .Dmg => 0xFF
        | .Cgb => m.cgb_mode.get_byte)
     else if addr = 0xFF4F then
       (match m.emu_mode with
        | .Dmg => 0xFF
        | .Cgb => m.gpu.get_byte addr)
     else if 0xFF51 ≤ addr ∧ addr ≤ 0xFF54 then 0xFF
     else if addr = 0xFF55 then
       (match m.emu_mode with
        | .Dmg => 0xFF
        | .Cgb =>
            match m.hdma.hdma_type with
            | .GPDma => m.hdma.blocks
            | .HBlankDma => m.hdma.blocks
            | .NoHdma => 0x80)
     else if 0xFF68 ≤ addr ∧ addr ≤ 0xFF6B then
       (match m.emu_mode with
        | .Dmg => 0xFF
        | .Cgb => m.gpu.get_byte addr)
     else if addr = 0xFF70 then
       (match m.emu_mode with
        | .Dmg => 0xFF
        | .Cgb => m.wram.get_byte addr)
     else 0xFF)
  else if addr ≤ 0xFFFE then m.hram (addr - 0xFF80)
  else m.ie

def Mmu.activate_oam_dma (m : Mmu) (value : Nat) : Mmu :=
  let od :=
    if 0 < m.oam_dma_cycles then { m.oam_dma with restarting := true }
    else { m.oam_dma with just_launched := true }
  { m with
    oam_dma := { od with active := true, src_addr := value <<< 8, i := 0 }
    oam_dma_cycles := 0 }

def Mmu.deactivate_oam_dma (m : Mmu) : Mmu :=
  { m with
    oam_dma := { m.oam_dma with active := false, just_launched := false, restarting := false }
    gpu := { m.gpu with oam_dma_active := false } }

def Mmu.set_byte (m : Mmu) (addr value : Nat) : Mmu :=
  if addr ≤ 0x7FFF then { m with cartridge := m.cartridge.set_byte addr value }
  else if addr ≤ 0x9FFF then { m with gpu := m.gpu.set_byte addr value }
  else if addr ≤ 0xBFFF then { m with cartridge := m.cartridge.set_byte addr value }
  else if addr ≤ 0xDFFF then { m with wram := m.wram.set_byte addr value }
  else if addr ≤ 0xFDFF then
    { m with wram := m.wram.set_byte (0xC000 + (addr - 0xE000)) value }
  else if addr ≤ 0xFE9F then
    (if m.gpu.oam_dma_active || m.oam_dma.restarting then m
     else { m with gpu := m.gpu.set_byte addr value })
  else if addr ≤ 0xFEFF then m
  else if addr ≤ 0xFF3F then
    (if addr = 0xFF00 then { m with joypad := m.joypad.set_byte addr value }
     else if addr = 0xFF01 then { m with serial_out := value }
     else if 0xFF04 ≤ addr ∧ addr ≤ 0xFF07 then
       { m with timer := m.timer.set_byte addr value }
     else if addr = 0xFF0F then
       { m with
         gpu := { m.gpu with
                  request_vblank_int := value &&& 0x01 != 0
                  request_lcd_int := value &&& 0x02 != 0 }
         timer := { m.timer with request_timer_int := value &&& 0x04 != 0 }
         request_serial_int := value &&& 0x08 != 0
         joypad := { m.joypad with request_joypad_int := value &&& 0x10 != 0 } }
     else if 0xFF10 ≤ addr ∧ addr ≤ 0xFF1E then { m with apu := m.apu.set_byte addr value }
     else if 0xFF20 ≤ addr ∧ addr ≤ 0xFF26 then { m with apu := m.apu.set_byte addr value }
     else if 0xFF30 ≤ addr ∧ addr ≤ 0xFF3F then { m with apu := m.apu.set_byte addr value }
     else m)
  else if addr ≤ 0xFF45 then { m with gpu := m.gpu.set_byte addr value }
  else if addr = 0xFF46 then m.activate_oam_dma value
  else if addr ≤ 0xFF4B then { m with gpu := m.gpu.set_byte addr value }
  else if addr ≤ 0xFF4E then
    (if addr = 0xFF4D ∧ m.emu_mode = EmulationMode.Cgb then
       { m with cgb_mode := { m.cgb_mode with prepare_speed_switch := value &&& 0x1 } }
     else m)
  else if addr = 0xFF4F then
    (if m.emu_mode = EmulationMode.Cgb then { m with gpu := m.gpu.set_byte addr value }
     else m)
  else if addr = 0xFF50 then
    (if m.bootrom.is_active ∧ value = 1 then { m with bootrom := m.bootrom.deactivate }
     else m)
  else if addr ≤ 0xFF7F then
    (if addr = 0xFF51 ∧ m.emu_mode = EmulationMode.Cgb then
       { m with hdma := { m.hdma with src := (m.hdma.src &&& 0xF0) ||| (value <<< 8) } }
     else if addr = 0xFF52 ∧ m.emu_mode = EmulationMode.Cgb then
       { m with hdma := { m.hdma with src := (m.hdma.src &&& 0xFF00) ||| (value &&& 0xF0) } }
     else if addr = 0xFF53 ∧ m.emu_mode = EmulationMode.Cgb then
       { m with hdma := { m.hdma with dst := (m.hdma.dst &&& 0xF0) ||| (value <<< 8) } }
     else if addr = 0xFF54 ∧ m.emu_mode = EmulationMode.Cgb then
       { m with hdma := { m.hdma with dst := (m.hdma.dst &&& 0x1F00) ||| (value &&& 0xF0) } }
     else if addr = 0xFF55 ∧ m.emu_mode = EmulationMode.Cgb then
       (if value &&& 0x80 = 0 then
          { m with hdma := { m.hdma with hdma_type := HdmaType.GPDma
                                         blocks := value &&& 0x7F } }
        else
          { m with hdma := { m.hdma with hdma_type := HdmaType.HBlankDma
                                         new_hdma := true
                                         blocks := value &&& 0x7F } })
     else if (0xFF68 ≤ addr ∧ addr ≤ 0xFF6B) ∧ m.emu_mode = EmulationMode.Cgb then
       { m with gpu := m.gpu.set_byte addr value }
     else if addr = 0xFF70 ∧ m.emu_mode = EmulationMode.Cgb then
       { m with wram := m.wram.set_byte addr value }
     else m)
  else if addr ≤ 0xFFFE then
    { m with hram := fun a => if a = addr - 0xFF80 then value else m.hram a }
  else { m with ie := value }

/-- One iteration of the body of the `while` loop in `Mmu::oam_dma_tick`:
copy one byte from the (possibly echo-aliased) source into OAM and advance
the counters. -/
def Mmu.oam_dma_copy (m : Mmu) : Mmu :=
  let value :=
    if m.oam_dma.src_addr < 0xE000 then m.get_byte m.oam_dma.src_addr
    else m.get_byte (m.oam_dma.src_addr &&& 0xDFFF)
  { m with
    oam_dma_cycles := m.oam_dma_cycles - 4
    gpu := { m.gpu with oam := fun a => if a = m.oam_dma.i then value else m.gpu.oam a }
    oam_dma := { m.oam_dma with
                 i := m.oam_dma.i + 1
                 src_addr := (m.oam_dma.src_addr + 1) % 65536 } }

/-- The `while oam_dma_cycles >= 4 and i < 160` loop of `Mmu::oam_dma_tick`.
The fuel only bounds the iteration count to make the recursion structural:
each iteration removes 4 cycles, so `fuel = oam_dma_cycles` (what
`oam_dma_tick` passes) always runs the loop to completion. -/
def Mmu.oam_dma_loop : Nat → Mmu → Mmu
  | 0, m => m
  | fuel + 1, m =>
      if 4 ≤ m.oam_dma_cycles ∧ m.oam_dma.i < 160 then
        Mmu.oam_dma_loop fuel m.oam_dma_copy
      else m

def Mmu.oam_dma_tick (m : Mmu) (cycles : Nat) : Mmu :=
  if m.oam_dma.i = 160 then m.deactivate_oam_dma
  else
    let m1 : Mmu := { m with oam_dma_cycles := m.oam_dma_cycles + cycles }
    let m2 : Mmu :=
      if m1.oam_dma.restarting ∧ 4 ≤ m1.oam_dma_cycles then
        { m1 with
          oam_dma_cycles := m1.oam_dma_cycles - 4
          gpu := { m1.gpu with oam_dma_active := true }
          oam_dma := { m1.oam_dma with restarting := false } }
      else if m1.oam_dma.just_launched ∧ 4 ≤ m1.oam_dma_cycles then
        { m1 with
          oam_dma_cycles := m1.oam_dma_cycles - 4
          gpu := { m1.gpu with oam_dma_active := true }
          oam_dma := { m1.oam_dma with just_launched := false } }
      else m1
    Mmu.oam_dma_loop m2.oam_dma_cycles m2

/-- One iteration of the 16-byte copy loop in `Mmu::hdma_transfer_block`.
The `u16` increments of `src` and `dst` wrap here (Rust release semantics);
`Mmu.hdma_copy_checked` makes the debug-mode overflow observable instead. -/
def Mmu.hdma_copy (m : Mmu) : Mmu :=
  let value := m.get_byte m.hdma.src
  let m1 := m.set_byte (0x8000 ||| (m.hdma.dst &&& 0x1FFF)) value
  { m1 with hdma := { m1.hdma with
                      src := (m1.hdma.src + 1) % 65536
                      dst := (m1.hdma.dst + 1) % 65536 } }

def Mmu.hdma_copy_n : Nat → Mmu → Mmu
  | 0, m => m
  | n + 1, m => Mmu.hdma_copy_n n m.hdma_copy

def Mmu.hdma_transfer_block (m : Mmu) : Mmu :=
  if m.hdma.blocks = 0 then m
  else
    let m1 := Mmu.hdma_copy_n 16 m
    { m1 with hdma := { m1.hdma with blocks := m1.hdma.blocks - 1 } }

def Mmu.gdma_tick (m : Mmu) : Mmu :=
  let m1 := m.hdma_transfer_block
  if m1.hdma.blocks = 0 then
    { m1 with hdma := { m1.hdma with hdma_type := HdmaType.NoHdma } }
  else m1

def Mmu.hdma_tick (m : Mmu) : Mmu :=
  let m1 := m.hdma_transfer_block
  let m2 :=
    if m1.hdma.blocks = 0 then
      { m1 with hdma := { m1.hdma with hdma_type := HdmaType.NoHdma } }
    else m1
  { m2 with gpu := { m2.gpu with hdma_flag := false } }

/-- One iteration of the copy loop with the two `u16` increments checked,
mirroring Rust debug overflow semantics: `none` is the overflow panic. -/
def Mmu.hdma_copy_checked (m : Mmu) : Option Mmu :=
  let value := m.get_byte m.hdma.src
  let m1 := m.set_byte (0x8000 ||| (m.hdma.dst &&& 0x1FFF)) value
  if m1.hdma.src + 1 ≤ 0xFFFF ∧ m1.hdma.dst + 1 ≤ 0xFFFF then
    some { m1 with hdma := { m1.hdma with src := m1.hdma.src + 1, dst := m1.hdma.dst + 1 } }
  else none

def Mmu.hdma_copy_n_checked : Nat → Mmu → Option Mmu
  | 0, m => some m
  | n + 1, m =>
      match m.hdma_copy_checked with
      | some m1 => Mmu.hdma_copy_n_checked n m1
      | none => none

/-- `Mmu::hdma_transfer_block` with the per-byte `src`/`dst` increments
checked for `u16` overflow. -/
def Mmu.hdma_transfer_block_checked (m : Mmu) : Option Mmu :=
  if m.hdma.blocks = 0 then some m
  else
    match Mmu.hdma_copy_n_checked 16 m with
    | some m1 => some { m1 with hdma := { m1.hdma with blocks := m1.hdma.blocks - 1 } }
    | none => none

/-- Iterate `oam_dma_tick` with 4 T-cycles per call (one machine cycle per
call, as the host drives it). -/
def Mmu.oam_dma_tick4_n : Nat → Mmu → Mmu
  | 0, m => m
  | n + 1, m => Mmu.oam_dma_tick4_n n (m.oam_dma_tick 4)

def Mmu.gdma_tick_n : Nat → Mmu → Mmu
  | 0, m => m
  | n + 1, m => Mmu.gdma_tick_n n m.gdma_tick

/-- A concrete post-construction MMU: zeroed cartridge image, a distinctive
boot-ROM byte pattern, DMG mode. -/
def mmu0 : Mmu :=
  Mmu.new (fun _ => 0) (fun i => (3 * i + 1) % 256) EmulationMode.Dmg

/-- The same concrete MMU in CGB mode. -/
def mmu0Cgb : Mmu :=
  Mmu.new (fun _ => 0) (fun i => (3 * i + 1) % 256) EmulationMode.Cgb

/-- A concrete MMU with an OAM-DMA transfer in flight (`gpu.oam_dma_active`
set), used to witness the OAM masking claims. -/
def mmuDma : Mmu :=
  { mmu0 with gpu := { mmu0.gpu with oam_dma_active := true } }

/-- C3 scenario: arm an H-Blank DMA (HDMA5 ← `0x85`), then write HDMA5 ←
`0x03` (bit 7 clear) while it is active. -/
def c3State : Mmu :=
  (mmu0Cgb.set_byte 0xFF55 0x85).set_byte 0xFF55 0x03

/-- C7 scenario: HDMA1..HDMA4 ← `0x00, 0x00, 0x80, 0x00`, then HDMA5 ←
`0x0F`, on a CGB MMU. -/
def c7Armed : Mmu :=
  ((((mmu0Cgb.set_byte 0xFF51 0x00).set_byte 0xFF52 0x00).set_byte 0xFF53 0x80).set_byte
      0xFF54 0x00).set_byte 0xFF55 0x0F

/-- C8 scenario: launch OAM-DMA from `0xC000`, run its startup step, tick 2
more T-cycles (so 2 cycles are pending), then re-trigger with source
`0x8000`: the re-trigger takes the `restarting` branch. -/
def c8Restart : Mmu :=
  (((mmu0.set_byte 0xFF46 0xC0).oam_dma_tick 4).oam_dma_tick 2).set_byte 0xFF46 0x80

/-- C10 scenario: HDMA1 ← `0xFF`, HDMA2 ← `0xF0` (so `src = 0xFFF0`, the
largest source reachable through the register interface), HDMA4 ← `0x00`,
HDMA5 ← `0x01` (one block). -/
def c10Reach : Mmu :=
  (((mmu0Cgb.set_byte 0xFF51 0xFF).set_byte 0xFF52 0xF0).set_byte 0xFF54 0x00).set_byte
    0xFF55 0x01

/-- The write to `0xFF46` followed by the 4-cycle startup tick (C2). -/
def oamStart (m : Mmu) (v : Nat) : Mmu :=
  (m.set_byte 0xFF46 v).oam_dma_tick 4

/-- `oamStart` followed by 160 machine cycles (640 T-cycles) of DMA (C2). -/
def oamFull (m : Mmu) (v : Nat) : Mmu :=
  Mmu.oam_dma_tick4_n 160 (oamStart m v)

/-- `oamFull` followed by one more tick, which deactivates the engine (C2). -/
def oamEnd (m : Mmu) (v : Nat) : Mmu :=
  (oamFull m v).oam_dma_tick 4

theorem lor_two_pow15_eq_add (y : Nat) (h : y < 32768) : 32768 ||| y = 32768 + y := by
  apply Nat.eq_of_testBit_eq
  intro k
  rw [Nat.testBit_lor]
  rw [show (32768 + y : Nat) = 2 ^ 15 * 1 + y by omega]
  rw [Nat.testBit_mul_pow_two_add 1 (by omega : y < 2 ^ 15) k]
  rw [show (32768 : Nat) = 2 ^ 15 by norm_num, Nat.testBit_two_pow]
  by_cases hk : k < 15
  · rw [if_pos hk]
    simp [show ¬ (15 = k) by omega]
  · rw [if_neg hk]
    have hy : y.testBit k = false :=
      Nat.testBit_lt_two_pow (lt_of_lt_of_le (by omega : y < 2 ^ 15)
        (Nat.pow_le_pow_right (by norm_num) (by omega)))
    rw [hy, show (1 : Nat) = 2 ^ 0 by norm_num, Nat.testBit_two_pow]
    by_cases h15 : k = 15
    · subst h15; simp
    · simp [show ¬ (15 = k) by omega, show ¬ (0 = k - 15) by omega]

theorem oam_read_masked (m : Mmu) (addr : Nat)
    (h1 : 0xFE00 ≤ addr) (h2 : addr ≤ 0xFE9F)
    (hg : (m.gpu.oam_dma_active || m.oam_dma.restarting) = true) :
    m.get_byte addr = 0xFF := by
  unfold Mmu.get_byte
  have k1 : ¬ addr ≤ 0x00FF := by omega
  have k2 : ¬ addr ≤ 0x7FFF := by omega
  have k3 : ¬ addr ≤ 0x9FFF := by omega
  have k4 : ¬ addr ≤ 0xBFFF := by omega
  have k5 : ¬ addr ≤ 0xDFFF := by omega
  have k6 : ¬ addr ≤ 0xFDFF := by omega
  have k7 : addr ≤ 0xFE9F := h2
  rw [if_neg k1, if_neg k2, if_neg k3, if_neg k4, if_neg k5, if_neg k6, if_pos k7,
      if_pos hg]

theorem oam_write_dropped (m : Mmu) (addr v : Nat)
    (h1 : 0xFE00 ≤ addr) (h2 : addr ≤ 0xFE9F)
    (hg : (m.gpu.oam_dma_active || m.oam_dma.restarting) = true) :
    m.set_byte addr v = m := by
  unfold Mmu.set_byte
  have k2 : ¬ addr ≤ 0x7FFF := by omega
  have k3 : ¬ addr ≤ 0x9FFF := by omega
  have k4 : ¬ addr ≤ 0xBFFF := by omega
  have k5 : ¬ addr ≤ 0xDFFF := by omega
  have k6 : ¬ addr ≤ 0xFDFF := by omega
  rw [if_neg k2, if_neg k3, if_neg k4, if_neg k5, if_neg k6, if_pos h2, if_pos hg]

theorem set_ff46_eq_activate (m : Mmu) (v : Nat) :
    m.set_byte 0xFF46 v = m.activate_oam_dma v := by
  unfold Mmu.set_byte
  have k2 : ¬ (0xFF46 : Nat) ≤ 0x7FFF := by norm_num
  have k3 : ¬ (0xFF46 : Nat) ≤ 0x9FFF := by norm_num
  have k4 : ¬ (0xFF46 : Nat) ≤ 0xBFFF := by norm_num
  have k5 : ¬ (0xFF46 : Nat) ≤ 0xDFFF := by norm_num
  have k6 : ¬ (0xFF46 : Nat) ≤ 0xFDFF := by norm_num
  have k7 : ¬ (0xFF46 : Nat) ≤ 0xFE9F := by norm_num
  have k8 : ¬ (0xFF46 : Nat) ≤ 0xFEFF := by norm_num
  have k9 : ¬ (0xFF46 : Nat) ≤ 0xFF3F := by norm_num
  have ka : ¬ (0xFF46 : Nat) ≤ 0xFF45 := by norm_num
  rw [if_neg k2, if_neg k3, if_neg k4, if_neg k5, if_neg k6, if_neg k7, if_neg k8,
      if_neg k9, if_neg ka, if_pos rfl]

theorem set_byte_vram_eq (m : Mmu) (a v : Nat) (h1 : 0x8000 ≤ a) (h2 : a ≤ 0x9FFF) :
    m.set_byte a v = { m with gpu := m.gpu.set_byte a v } := by
  unfold Mmu.set_byte
  rw [if_neg (by omega), if_pos (by omega)]

/-- C1: while the timer is in the `Reloading` state, a read of TIMA (`0xFF05`)
returns `0x00`; a write of any byte `v` to TIMA in that window stores `v` and
sets `tima_written_while_reload`, so that the next 4-cycle state-machine step
(`advance_state`) keeps `acc = v`, does not set `request_timer_int`, and moves
to `Reloaded`: the pending TMA reload and the interrupt latch are suppressed. -/
theorem c1_tima_reloading_read_write (t : Timer) (v : Nat)
    (hst : t.state = TimerState.Reloading) (_hv : v < 256) :
    t.get_byte 0xFF05 = 0 ∧
    (t.set_byte 0xFF05 v).acc = v ∧
    (t.set_byte 0xFF05 v).tima_written_while_reload = true ∧
    (t.set_byte 0xFF05 v).advance_state.acc = v ∧
    (t.set_byte 0xFF05 v).advance_state.request_timer_int = t.request_timer_int ∧
    (t.set_byte 0xFF05 v).advance_state.state = TimerState.Reloaded := by
  obtain ⟨acc, tma, en, fr, dv, ri, tb, st, ck, tw⟩ := t
  simp only [Timer.state] at hst
  subst hst
  simp [Timer.get_byte, Timer.set_byte, Timer.advance_state]

/-- C1 witness: `c1_tima_reloading_read_write` at a concrete reloading timer
and written byte `0x7E`. -/
theorem c1_tima_reloading_read_write_witness :
    ({ Timer.new EmulationMode.Dmg with state := TimerState.Reloading } : Timer).get_byte
        0xFF05 = 0 ∧
    (({ Timer.new EmulationMode.Dmg with state := TimerState.Reloading } : Timer).set_byte
        0xFF05 0x7E).acc = 0x7E ∧
    (({ Timer.new EmulationMode.Dmg with state := TimerState.Reloading } : Timer).set_byte
        0xFF05 0x7E).tima_written_while_reload = true ∧
    (({ Timer.new EmulationMode.Dmg with state := TimerState.Reloading } : Timer).set_byte
        0xFF05 0x7E).advance_state.acc = 0x7E ∧
    (({ Timer.new EmulationMode.Dmg with state := TimerState.Reloading } : Timer).set_byte
        0xFF05 0x7E).advance_state.request_timer_int =
      ({ Timer.new EmulationMode.Dmg with
           state := TimerState.Reloading } : Timer).request_timer_int ∧
    (({ Timer.new EmulationMode.Dmg with state := TimerState.Reloading } : Timer).set_byte
        0xFF05 0x7E).advance_state.state = TimerState.Reloaded :=
  c1_tima_reloading_read_write _ 0x7E rfl (by decide)

/-- C4: whenever `gpu.oam_dma_active` or `oam_dma.restarting` holds, every MMU
read in `0xFE00..=0xFE9F` returns `0xFF` and every MMU write there leaves the
whole MMU state (the GPU's OAM included) unchanged. -/
theorem c4_oam_masked_during_dma (m : Mmu) (addr v : Nat)
    (h1 : 0xFE00 ≤ addr) (h2 : addr ≤ 0xFE9F)
    (hdma : m.gpu.oam_dma_active = true ∨ m.oam_dma.restarting = true) :
    m.get_byte addr = 0xFF ∧ m.set_byte addr v = m := by
  have hg : (m.gpu.oam_dma_active || m.oam_dma.restarting) = true := by
    rcases hdma with h | h <;> simp [h]
  exact ⟨oam_read_masked m addr h1 h2 hg, oam_write_dropped m addr v h1 h2 hg⟩

/-- C4 witness: `c4_oam_masked_during_dma` at a concrete MMU with
`gpu.oam_dma_active` set, OAM address `0xFE50`, written byte `0xAB`. -/
theorem c4_oam_masked_during_dma_witness :
    mmuDma.get_byte 0xFE50 = 0xFF ∧ mmuDma.set_byte 0xFE50 0xAB = mmuDma :=
  c4_oam_masked_during_dma mmuDma 0xFE50 0xAB (by decide) (by decide) (Or.inl rfl)

/-- C5: the spec's cycle-accurate overflow scenario through the register
interface: DMG timer, DIV reset (aligning the divider counter to 0), then
TAC = `0x05` (enable, freq 1, period 16), TIMA = `0xFF`, TMA = `0x42`.
After 16 T-cycles TIMA has overflowed (`acc = 0`), the state is `Reloading`
and a TIMA read returns 0; after 4 more T-cycles the state is `Reloaded`,
`acc = 0x42`, and the timer interrupt is latched. -/
theorem c5_timer_overflow_cycle_accurate :
    ((((((Timer.new EmulationMode.Dmg).set_byte 0xFF04 0).set_byte 0xFF07 0x05).set_byte
        0xFF05 0xFF).set_byte 0xFF06 0x42).tick 16).state = TimerState.Reloading ∧
    ((((((Timer.new EmulationMode.Dmg).set_byte 0xFF04 0).set_byte 0xFF07 0x05).set_byte
        0xFF05 0xFF).set_byte 0xFF06 0x42).tick 16).acc = 0 ∧
    ((((((Timer.new EmulationMode.Dmg).set_byte 0xFF04 0).set_byte 0xFF07 0x05).set_byte
        0xFF05 0xFF).set_byte 0xFF06 0x42).tick 16).get_byte 0xFF05 = 0 ∧
    ((((((Timer.new EmulationMode.Dmg).set_byte 0xFF04 0).set_byte 0xFF07 0x05).set_byte
        0xFF05 0xFF).set_byte 0xFF06 0x42).tick 20).state = TimerState.Reloaded ∧
    ((((((Timer.new EmulationMode.Dmg).set_byte 0xFF04 0).set_byte 0xFF07 0x05).set_byte
        0xFF05 0xFF).set_byte 0xFF06 0x42).tick 20).acc = 0x42 ∧
    ((((((Timer.new EmulationMode.Dmg).set_byte 0xFF04 0).set_byte 0xFF07 0x05).set_byte
        0xFF05 0xFF).set_byte 0xFF06 0x42).tick 20).request_timer_int = true := by
  set_option maxRecDepth 20000 in decide

/-- C6: with the timer enabled (`timer_enable = 4`), `freq = 0` (tapped bit 9)
and bit 9 of the divider counter set, writing 0 to DIV (`0xFF04`) resets the
counter to 0 and increments TIMA exactly once. -/
theorem c6_div_reset_glitch (t : Timer)
    (hen : t.timer_enable = 4) (_hfreq : t.freq = 0) (hbit : t.tima_bit = 9)
    (h9 : (t.divider.counter >>> 9) % 2 = 1) :
    (t.set_byte 0xFF04 0).divider.counter = 0 ∧
    (t.set_byte 0xFF04 0).acc = (t.acc + 1) % 256 := by
  have hcond : (t.divider.counter >>> t.tima_bit) % 256 % 2 = 1 := by
    rw [hbit, Nat.mod_mod_of_dvd _ (by norm_num)]
    exact h9
  constructor <;>
    simp [Timer.set_byte, Timer.detect_falling_edge, Timer.increment_tima,
      Divider.set_byte, Timer.signal, hen, hcond]

/-- C6 witness: `c6_div_reset_glitch` at a concrete enabled timer whose
divider counter is `0x0200` (bit 9 set). -/
theorem c6_div_reset_glitch_witness :
    (({ Timer.new EmulationMode.Dmg with
          timer_enable := 4, divider := { counter := 0x0200 } } : Timer).set_byte
        0xFF04 0).divider.counter = 0 ∧
    (({ Timer.new EmulationMode.Dmg with
          timer_enable := 4, divider := { counter := 0x0200 } } : Timer).set_byte
        0xFF04 0).acc =
      (({ Timer.new EmulationMode.Dmg with
            timer_enable := 4, divider := { counter := 0x0200 } } : Timer).acc + 1) % 256 :=
  c6_div_reset_glitch _ rfl rfl rfl (by decide)

/-- C3 counterexample: on the CGB MMU with an H-Blank DMA of 5 blocks armed,
writing `0x03` (bit 7 clear) to HDMA5 does not terminate the transfer — the
kind becomes `GPDma`, not `NoHdma` — and the subsequent HDMA5 read returns
`3`, not `blocks | 0x80 = 0x83`. -/
theorem c3_counterexample :
    (mmu0Cgb.set_byte 0xFF55 0x85).hdma.hdma_type = HdmaType.HBlankDma ∧
    c3State.hdma.hdma_type = HdmaType.GPDma ∧
    c3State.hdma.hdma_type ≠ HdmaType.NoHdma ∧
    c3State.get_byte 0xFF55 = 3 ∧
    (3 : Nat) ≠ 0x83 := by
  set_option maxRecDepth 20000 in decide

/-- C3 (amended): in CGB mode, writing a value with bit 7 clear to HDMA5
while an H-Blank DMA is active converts the transfer into a general-purpose
DMA with `blocks = value & 0x7F`; a subsequent read of HDMA5 returns those
blocks without bit 7 set. -/
theorem c3_hdma5_bit7_clear_while_hblank (m : Mmu) (v : Nat)
    (hmode : m.emu_mode = EmulationMode.Cgb)
    (_hact : m.hdma.hdma_type = HdmaType.HBlankDma)
    (_hv : v < 256) (hbit : v &&& 0x80 = 0) :
    (m.set_byte 0xFF55 v).hdma.hdma_type = HdmaType.GPDma ∧
    (m.set_byte 0xFF55 v).hdma.blocks = v &&& 0x7F ∧
    (m.set_byte 0xFF55 v).get_byte 0xFF55 = v &&& 0x7F := by
  simp [Mmu.set_byte, Mmu.get_byte, hmode, hbit]

/-- C3 witness: `c3_hdma5_bit7_clear_while_hblank` on the armed H-Blank DMA
state, written value `0x03`. -/
theorem c3_hdma5_bit7_clear_while_hblank_witness :
    ((mmu0Cgb.set_byte 0xFF55 0x85).set_byte 0xFF55 0x03).hdma.hdma_type =
      HdmaType.GPDma ∧
    ((mmu0Cgb.set_byte 0xFF55 0x85).set_byte 0xFF55 0x03).hdma.blocks = 0x03 &&& 0x7F ∧
    ((mmu0Cgb.set_byte 0xFF55 0x85).set_byte 0xFF55 0x03).get_byte 0xFF55 =
      0x03 &&& 0x7F :=
  c3_hdma5_bit7_clear_while_hblank (mmu0Cgb.set_byte 0xFF55 0x85) 0x03
    (by decide) (by decide) (by decide) (by decide)

theorem if_bits_aux : ∀ v < 256,
    224 ||| (v &&& 16 != 0).toNat <<< 4 ||| (v &&& 8 != 0).toNat <<< 3 |||
      (v &&& 4 != 0).toNat <<< 2 ||| (v &&& 2 != 0).toNat <<< 1 ||| (v % 2 == 1).toNat =
    v &&& 31 ||| 224 := by
  set_option maxRecDepth 8000 in decide

/-- C9: for every byte `v`, writing `v` to the interrupt-flag register
`0xFF0F` and then reading `0xFF0F` returns `(v & 0x1F) | 0xE0`: the write
deposits the five low bits into the peripheral request latches, the read
recomposes them under high bits forced to 1. -/
theorem c9_if_roundtrip (m : Mmu) (v : Nat) (hv : v < 256) :
    (m.set_byte 0xFF0F v).get_byte 0xFF0F = (v &&& 0x1F) ||| 0xE0 := by
  simp [Mmu.set_byte, Mmu.get_byte]
  exact if_bits_aux v hv

/-- C9 witness: `c9_if_roundtrip` on the concrete MMU with `v = 0xAB`. -/
theorem c9_if_roundtrip_witness :
    (mmu0.set_byte 0xFF0F 0xAB).get_byte 0xFF0F = (0xAB &&& 0x1F) ||| 0xE0 :=
  c9_if_roundtrip mmu0 0xAB (by decide)

/-- C7 counterexample: after the arming writes `0x00,0x00,0x80,0x00` to
HDMA1..4 and `0x0F` to HDMA5, `dst` is `0x0000` (not `0x8000`: the HDMA4
write masks the previous `dst` with `0x1F00`, clearing bit 15), and after 16
`gdma_tick` calls VRAM `0x80F0` still holds 0 while the source byte at
`0x00F0` is 209: only 15 blocks (240 bytes) are transferred, so VRAM
`0x8000..=0x80FF` does not mirror the full 256 source bytes. -/
theorem c7_counterexample :
    c7Armed.hdma.dst = 0 ∧ (0 : Nat) ≠ 0x8000 ∧
    (Mmu.gdma_tick_n 16 c7Armed).gpu.vram 0x80F0 = 0 ∧
    mmu0Cgb.get_byte 0xF0 = 209 ∧ (0 : Nat) ≠ 209 := by
  set_option maxRecDepth 20000 in decide

/-- C7 (amended): the arming writes yield `blocks = 15`, `kind =
GeneralPurpose`, `src = 0x0000`, and `dst = 0x0000` (the block copy still
targets `0x8000..` because the write address is composed as
`0x8000 | (dst & 0x1FFF)`); after 16 `gdma_tick` calls the kind is `None`
and VRAM `0x8000..=0x80EF` (15 blocks of 16 bytes) mirrors the source bytes
at `0x0000..=0x00EF`. -/
theorem c7_hdma_arming :
    c7Armed.hdma.blocks = 15 ∧
    c7Armed.hdma.hdma_type = HdmaType.GPDma ∧
    c7Armed.hdma.src = 0x0000 ∧
    c7Armed.hdma.dst = 0x0000 ∧
    (Mmu.gdma_tick_n 16 c7Armed).hdma.hdma_type = HdmaType.NoHdma ∧
    (∀ k : Fin 240,
      (Mmu.gdma_tick_n 16 c7Armed).gpu.vram (0x8000 + k.val) = mmu0Cgb.get_byte k.val) := by
  set_option maxRecDepth 20000 in decide

/-- C8 counterexample: re-triggering OAM-DMA while 2 T-cycles are pending
takes the `restarting` branch, yet `gpu.oam_dma_active` stays `true` in the
restart window (also after 3 more T-cycles), and an OAM read in the window
returns `0xFF` — OAM is not readable during the gap. -/
theorem c8_counterexample :
    c8Restart.oam_dma.restarting = true ∧
    c8Restart.gpu.oam_dma_active = true ∧
    (c8Restart.oam_dma_tick 3).oam_dma.restarting = true ∧
    (c8Restart.oam_dma_tick 3).gpu.oam_dma_active = true ∧
    c8Restart.get_byte 0xFE00 = 0xFF := by
  set_option maxRecDepth 20000 in decide

/-- C8 (amended): re-triggering OAM-DMA while cycles are pending sets
`restarting` but leaves `gpu.oam_dma_active` `true` (`activate_oam_dma`
never clears it); since OAM reads are masked when either flag holds, the
CPU reads `0xFF` from OAM throughout the restart window — the gap is not
readable. -/
theorem c8_restart_window_masked (m : Mmu) (v : Nat)
    (hact : m.gpu.oam_dma_active = true) (hcy : 0 < m.oam_dma_cycles) (_hv : v < 256) :
    (m.set_byte 0xFF46 v).oam_dma.restarting = true ∧
    (m.set_byte 0xFF46 v).gpu.oam_dma_active = true ∧
    (∀ a, 0xFE00 ≤ a → a ≤ 0xFE9F → (m.set_byte 0xFF46 v).get_byte a = 0xFF) := by
  rw [set_ff46_eq_activate]
  refine ⟨?_, ?_, ?_⟩
  · simp [Mmu.activate_oam_dma, hcy]
  · simp [Mmu.activate_oam_dma, hcy, hact]
  · intro a ha1 ha2
    apply oam_read_masked _ a ha1 ha2
    simp [Mmu.activate_oam_dma, hcy, hact]

/-- C8 witness: `c8_restart_window_masked` on the concrete mid-transfer MMU
(2 pending cycles), re-trigger value `0x80`, OAM address `0xFE00`. -/
theorem c8_restart_window_masked_witness :
    ((((mmu0.set_byte 0xFF46 0xC0).oam_dma_tick 4).oam_dma_tick 2).set_byte
        0xFF46 0x80).oam_dma.restarting = true ∧
    ((((mmu0.set_byte 0xFF46 0xC0).oam_dma_tick 4).oam_dma_tick 2).set_byte
        0xFF46 0x80).gpu.oam_dma_active = true ∧
    ((((mmu0.set_byte 0xFF46 0xC0).oam_dma_tick 4).oam_dma_tick 2).set_byte
        0xFF46 0x80).get_byte 0xFE00 = 0xFF :=
  have h := c8_restart_window_masked
    (((mmu0.set_byte 0xFF46 0xC0).oam_dma_tick 4).oam_dma_tick 2) 0x80
    (by decide) (by decide) (by decide)
  ⟨h.1, h.2.1, h.2.2 0xFE00 (by decide) (by decide)⟩

theorem oam_dma_loop_stop (fuel : Nat) (m : Mmu) (h : ¬ 4 ≤ m.oam_dma_cycles) :
    Mmu.oam_dma_loop fuel m = m := by
  cases fuel with
  | zero => rfl
  | succ f =>
      simp only [Mmu.oam_dma_loop]
      rw [if_neg (fun hab => h hab.1)]

theorem oam_dma_loop_step (fuel : Nat) (m : Mmu)
    (h4 : 4 ≤ m.oam_dma_cycles) (hi : m.oam_dma.i < 160) :
    Mmu.oam_dma_loop (fuel + 1) m = Mmu.oam_dma_loop fuel m.oam_dma_copy := by
  simp only [Mmu.oam_dma_loop]
  rw [if_pos ⟨h4, hi⟩]

theorem oam_dma_loop_four (m : Mmu) (hc : m.oam_dma_cycles = 4) (hi : m.oam_dma.i < 160) :
    Mmu.oam_dma_loop 4 m = m.oam_dma_copy := by
  rw [show Mmu.oam_dma_loop 4 m = Mmu.oam_dma_loop 3 m.oam_dma_copy from
        oam_dma_loop_step 3 m (by omega) hi]
  exact oam_dma_loop_stop 3 _ (by simp [Mmu.oam_dma_copy, hc])

theorem oam_dma_tick4_no_startup (m : Mmu)
    (hr : m.oam_dma.restarting = false) (hj : m.oam_dma.just_launched = false)
    (hc : m.oam_dma_cycles = 0) (hi : m.oam_dma.i < 160) :
    m.oam_dma_tick 4 = Mmu.oam_dma_copy { m with oam_dma_cycles := 4 } := by
  simp only [Mmu.oam_dma_tick, hr, hj, hc]
  rw [if_neg (by omega)]
  simp only [Bool.false_eq_true, false_and, if_false, Nat.zero_add]
  exact oam_dma_loop_four _ rfl hi

theorem oam_dma_tick4_step (m : Mmu)
    (hr : m.oam_dma.restarting = false) (hj : m.oam_dma.just_launched = false)
    (hc : m.oam_dma_cycles = 0) (hi : m.oam_dma.i < 160) :
    (m.oam_dma_tick 4).oam_dma.i = m.oam_dma.i + 1 ∧
    (m.oam_dma_tick 4).oam_dma.restarting = false ∧
    (m.oam_dma_tick 4).oam_dma.just_launched = false ∧
    (m.oam_dma_tick 4).oam_dma_cycles = 0 ∧
    (m.oam_dma_tick 4).oam_dma.active = m.oam_dma.active ∧
    (m.oam_dma_tick 4).gpu.oam_dma_active = m.gpu.oam_dma_active := by
  rw [oam_dma_tick4_no_startup m hr hj hc hi]
  simp [Mmu.oam_dma_copy, hr, hj]

theorem oam_dma_tick4_n_props :
    ∀ (n : Nat) (m : Mmu), m.oam_dma.restarting = false → m.oam_dma.just_launched = false →
      m.oam_dma_cycles = 0 → m.oam_dma.i + n ≤ 160 →
      (Mmu.oam_dma_tick4_n n m).oam_dma.i = m.oam_dma.i + n ∧
      (Mmu.oam_dma_tick4_n n m).oam_dma.restarting = false ∧
      (Mmu.oam_dma_tick4_n n m).oam_dma.just_launched = false ∧
      (Mmu.oam_dma_tick4_n n m).oam_dma_cycles = 0 ∧
      (Mmu.oam_dma_tick4_n n m).oam_dma.active = m.oam_dma.active ∧
      (Mmu.oam_dma_tick4_n n m).gpu.oam_dma_active = m.gpu.oam_dma_active := by
  intro n
  induction n with
  | zero =>
      intro m hr hj hc _
      simp [Mmu.oam_dma_tick4_n, hr, hj, hc]
  | succ k ih =>
      intro m hr hj hc hin
      obtain ⟨h1, h2, h3, h4, h5, h6⟩ := oam_dma_tick4_step m hr hj hc (by omega)
      obtain ⟨g1, g2, g3, g4, g5, g6⟩ := ih (m.oam_dma_tick 4) h2 h3 h4 (by omega)
      simp only [Mmu.oam_dma_tick4_n]
      refine ⟨?_, g2, g3, g4, ?_, ?_⟩
      · rw [g1, h1]; omega
      · rw [g5, h5]
      · rw [g6, h6]

theorem oam_dma_tick4_startup (m : Mmu)
    (hj : m.oam_dma.just_launched = true) (hr : m.oam_dma.restarting = false)
    (hc : m.oam_dma_cycles = 0) (hi : ¬ m.oam_dma.i = 160) :
    (m.oam_dma_tick 4).oam_dma.i = m.oam_dma.i ∧
    (m.oam_dma_tick 4).oam_dma.active = m.oam_dma.active ∧
    (m.oam_dma_tick 4).gpu.oam_dma_active = true ∧
    (m.oam_dma_tick 4).oam_dma.restarting = false ∧
    (m.oam_dma_tick 4).oam_dma.just_launched = false ∧
    (m.oam_dma_tick 4).oam_dma_cycles = 0 := by
  simp only [Mmu.oam_dma_tick, hr, hj, hc]
  rw [if_neg hi]
  simp only [Bool.false_eq_true, false_and, if_false, Nat.zero_add, and_true,
    Nat.le_refl, if_true, true_and]
  norm_num
  rw [oam_dma_loop_stop 0 _ (by norm_num)]
  simp [hr]

theorem activate_idle (m : Mmu) (v : Nat) (hc : m.oam_dma_cycles = 0) :
    m.activate_oam_dma v =
      { m with
        oam_dma := { active := true, src_addr := v <<< 8, i := 0,
                     just_launched := true, restarting := m.oam_dma.restarting }
        oam_dma_cycles := 0 } := by
  simp [Mmu.activate_oam_dma, hc]

theorem oam_dma_tick_at_160 (m : Mmu) (hi : m.oam_dma.i = 160) (cycles : Nat) :
    m.oam_dma_tick cycles = m.deactivate_oam_dma := by
  simp only [Mmu.oam_dma_tick]
  rw [if_pos hi]

/-- C2: writing any byte `v` to `0xFF46` on an idle OAM-DMA engine and
ticking 4 T-cycles makes `oam_dma.active` and `gpu.oam_dma_active` true with
`index = 0`; 640 further T-cycles (160 machine cycles) bring `index` to 160;
one further tick deactivates the DMA, clearing `active`,
`gpu.oam_dma_active`, `just_launched` and `restarting` — a full transfer
occupies 4 + 160 × 4 = 644 T-cycles. -/
theorem c2_oam_dma_duration (m : Mmu) (v : Nat)
    (hc : m.oam_dma_cycles = 0) (hr : m.oam_dma.restarting = false) (_hv : v < 256) :
    (oamStart m v).oam_dma.active = true ∧
    (oamStart m v).gpu.oam_dma_active = true ∧
    (oamStart m v).oam_dma.i = 0 ∧
    (oamFull m v).oam_dma.i = 160 ∧
    (oamEnd m v).oam_dma.active = false ∧
    (oamEnd m v).gpu.oam_dma_active = false ∧
    (oamEnd m v).oam_dma.just_launched = false ∧
    (oamEnd m v).oam_dma.restarting = false := by
  have hact := activate_idle m v hc
  have hstart : oamStart m v = (m.activate_oam_dma v).oam_dma_tick 4 := by
    simp only [oamStart, set_ff46_eq_activate]
  have hA : (m.activate_oam_dma v).oam_dma.just_launched = true := by rw [hact]
  have hB : (m.activate_oam_dma v).oam_dma.restarting = false := by rw [hact]; exact hr
  have hC : (m.activate_oam_dma v).oam_dma_cycles = 0 := by rw [hact]
  have hD : ¬ (m.activate_oam_dma v).oam_dma.i = 160 := by rw [hact]; simp
  obtain ⟨s1, s2, s3, s4, s5, s6⟩ := oam_dma_tick4_startup _ hA hB hC hD
  have hi0 : (oamStart m v).oam_dma.i = 0 := by rw [hstart, s1, hact]
  have hactv : (oamStart m v).oam_dma.active = true := by rw [hstart, s2, hact]
  have hgpu : (oamStart m v).gpu.oam_dma_active = true := by rw [hstart]; exact s3
  have hr1 : (oamStart m v).oam_dma.restarting = false := by rw [hstart]; exact s4
  have hj1 : (oamStart m v).oam_dma.just_launched = false := by rw [hstart]; exact s5
  have hc1 : (oamStart m v).oam_dma_cycles = 0 := by rw [hstart]; exact s6
  obtain ⟨f1, f2, f3, f4, f5, f6⟩ :=
    oam_dma_tick4_n_props 160 (oamStart m v) hr1 hj1 hc1 (by omega)
  have hfull : (oamFull m v).oam_dma.i = 160 := by
    simp only [oamFull]
    rw [f1, hi0]
  have hend : oamEnd m v = (oamFull m v).deactivate_oam_dma := by
    simp only [oamEnd]
    exact oam_dma_tick_at_160 _ hfull 4
  refine ⟨hactv, hgpu, hi0, hfull, ?_, ?_, ?_, ?_⟩ <;>
    rw [hend] <;> simp [Mmu.deactivate_oam_dma]

/-- C2 witness: `c2_oam_dma_duration` on the concrete idle MMU with source
byte `0xC0`. -/
theorem c2_oam_dma_duration_witness :
    (oamStart mmu0 0xC0).oam_dma.active = true ∧
    (oamStart mmu0 0xC0).gpu.oam_dma_active = true ∧
    (oamStart mmu0 0xC0).oam_dma.i = 0 ∧
    (oamFull mmu0 0xC0).oam_dma.i = 160 ∧
    (oamEnd mmu0 0xC0).oam_dma.active = false ∧
    (oamEnd mmu0 0xC0).gpu.oam_dma_active = false ∧
    (oamEnd mmu0 0xC0).oam_dma.just_launched = false ∧
    (oamEnd mmu0 0xC0).oam_dma.restarting = false :=
  c2_oam_dma_duration mmu0 0xC0 rfl rfl (by decide)

/-- C10 counterexample: the state reached by writing `0xFF` to HDMA1, `0xF0`
to HDMA2 (so `src = 0xFFF0`), `0x00` to HDMA4 and `0x01` to HDMA5 has one
block pending, yet the checked block transfer aborts: the 16th increment of
`src` overflows the `u16` range (`0xFFF0 + 16 = 0x10000`), a panic in a
debug build. -/
theorem c10_counterexample :
    1 ≤ c10Reach.hdma.blocks ∧
    c10Reach.hdma.src = 0xFFF0 ∧
    c10Reach.hdma_transfer_block_checked.isSome = false := by
  set_option maxRecDepth 20000 in decide

theorem hdma_copy_checked_some (m : Mmu)
    (h1 : m.hdma.src + 1 ≤ 0xFFFF) (h2 : m.hdma.dst + 1 ≤ 0xFFFF) :
    ∃ m1, m.hdma_copy_checked = some m1 ∧
      m1.hdma.src = m.hdma.src + 1 ∧ m1.hdma.dst = m.hdma.dst + 1 := by
  have hy : m.hdma.dst &&& 0x1FFF ≤ 0x1FFF := Nat.and_le_right
  have haddr : (0x8000 : Nat) ||| (m.hdma.dst &&& 0x1FFF) =
      0x8000 + (m.hdma.dst &&& 0x1FFF) := lor_two_pow15_eq_add _ (by omega)
  have hset := set_byte_vram_eq m (0x8000 ||| (m.hdma.dst &&& 0x1FFF))
    (m.get_byte m.hdma.src) (by rw [haddr]; omega) (by rw [haddr]; omega)
  simp only [Mmu.hdma_copy_checked, hset]
  rw [if_pos (by constructor <;> [exact h1; exact h2])]
  exact ⟨_, rfl, rfl, rfl⟩

theorem hdma_copy_n_checked_some :
    ∀ (n : Nat) (m : Mmu), m.hdma.src + n ≤ 0xFFFF → m.hdma.dst + n ≤ 0xFFFF →
      ∃ m1, Mmu.hdma_copy_n_checked n m = some m1 ∧
        m1.hdma.src = m.hdma.src + n ∧ m1.hdma.dst = m.hdma.dst + n := by
  intro n
  induction n with
  | zero => intro m _ _; exact ⟨m, rfl, rfl, rfl⟩
  | succ k ih =>
      intro m h1 h2
      obtain ⟨m1, hm1, hs1, hd1⟩ := hdma_copy_checked_some m (by omega) (by omega)
      obtain ⟨m2, hm2, hs2, hd2⟩ := ih m1 (by omega) (by omega)
      refine ⟨m2, ?_, by omega, by omega⟩
      simp only [Mmu.hdma_copy_n_checked, hm1]
      exact hm2

/-- C10 (amended): a block transfer performs its 16 per-byte `src`/`dst`
increments without `u16` overflow whenever `src + 16 ≤ 0xFFFF` and
`dst + 16 ≤ 0xFFFF` — which holds for every register-reachable state except
`src = 0xFFF0` or `dst = 0xFFF0`, where the transfer overflows
(`c10_counterexample`). -/
theorem c10_no_overflow_bounded (m : Mmu) (hb : 1 ≤ m.hdma.blocks)
    (hs : m.hdma.src + 16 ≤ 0xFFFF) (hd : m.hdma.dst + 16 ≤ 0xFFFF) :
    m.hdma_transfer_block_checked.isSome = true := by
  obtain ⟨m1, hm1, _, _⟩ := hdma_copy_n_checked_some 16 m hs hd
  simp only [Mmu.hdma_transfer_block_checked]
  rw [if_neg (by omega), hm1]
  rfl

/-- C10 witness: `c10_no_overflow_bounded` on the armed general-purpose DMA
state of C7 (`blocks = 15`, `src = dst = 0`). -/
theorem c10_no_overflow_bounded_witness :
    c7Armed.hdma_transfer_block_checked.isSome = true :=
  c10_no_overflow_bounded c7Armed (by decide) (by decide) (by decide)
